import Mathlib

/-!
# WoollyEggs — Address Intake Service: shallow embedding and verification

This file embeds, in Lean 4, the serverless address-intake endpoints of the
WoollyEggs repository and proves properties of them:

* `src/api/monad-address.ts` contains two variants of the endpoint, embedded
  here as `handler1` (KV store + compiled-in `BASE_SET` allowlist) and
  `handler2` (KV store + Postgres-table allowlist with `BASE_SET` fallback);
* the unnamed Postgres-only variant (`src/unnamed/part_000`) is embedded as
  `handler0` (no allowlist; idempotent insert into a relational table);
* `src/lib/baseAddresses.ts` (`src/unnamed/part_001`) supplies `BASE_SET`.

JavaScript values that can appear as a request body are modelled by `Js`;
the environment (process env vars, storage availability, allowlist table
contents, and the behaviour of `JSON.parse`) is a parameter `Env`; the two
storage backends are explicit states `KvState` and `PgState`.  Each handler
is a pure function from (environment, store state, request) to
(HTTP response, new store state, number of attempted confirmed-set writes).
-/

/-- A JavaScript value, as can appear in a JSON request body. -/
inductive Js where
  | jNull : Js
  | jBool : Bool → Js
  | jNum : Int → Js
  | jStr : String → Js
  | jArr : List Js → Js
  | jObj : List (String × Js) → Js

/-- A header value: `string | string[]` (absence is modelled by lookup failure). -/
inductive HeaderVal where
  | one : String → HeaderVal
  | many : List String → HeaderVal

/-- The `ApiRequest` shape from the TypeScript source: method, headers, body.
`body : Option Js` with `none` for an absent (`undefined`) body. -/
structure ApiRequest where
  method : Option String
  headers : List (String × HeaderVal)
  body : Option Js

/-- The JSON payloads produced by the handlers:
`{ ok: boolean, verified?: boolean, inserted?: boolean, error?: string }`. -/
structure JsonPayload where
  ok : Bool
  verified : Option Bool := none
  inserted : Option Bool := none
  error : Option String := none
deriving DecidableEq, Repr

/-- An HTTP response: status code plus JSON payload. -/
structure HandlerResult where
  status : Nat
  payload : JsonPayload
deriving DecidableEq, Repr

/-- The KV confirmed-set store: members of the Redis set at key `we:confirmed`. -/
structure KvState where
  confirmed : List String
deriving DecidableEq, Repr

/-- One row of the `monad_addresses` Postgres table (id/created_at omitted:
they are never read by this system). -/
structure PgRow where
  address : String
  ip : String
  userAgent : String
deriving DecidableEq, Repr

/-- The Postgres store of `part_000`: whether `monad_addresses` exists, and its rows. -/
structure PgState where
  tableExists : Bool
  rows : List PgRow
deriving DecidableEq, Repr

/-- The process environment and external-world behaviour:
presence of env vars, availability of each store, the allowlist table
contents, error messages carried by thrown errors, and `JSON.parse`. -/
structure Env where
  kvUrl : Bool
  kvToken : Bool
  kvUp : Bool
  kvErrMsg : String
  dbConfigured : Bool
  dbUp : Bool
  dbErrMsg : String
  allowTable : List String
  pgUrl : Bool
  pgUp : Bool
  pgErrMsg : String
  jsonParse : String → Option Js

/-! ## String primitives (JavaScript semantics) -/

/-- JavaScript whitespace as recognised by `String.prototype.trim`:
WhiteSpace (TAB, VT, FF, SP, NBSP, ZWNBSP, Unicode space separators)
and LineTerminator (LF, CR, LS, PS). -/
def jsWhitespace (c : Char) : Bool :=
  c.toNat ∈ [9, 10, 11, 12, 13, 32, 0xA0, 0x1680, 0x2028, 0x2029, 0x202F, 0x205F, 0x3000, 0xFEFF]
    || (0x2000 ≤ c.toNat && c.toNat ≤ 0x200A)

/-- Drop leading JS whitespace from a character list. -/
def trimLeftL (l : List Char) : List Char := l.dropWhile jsWhitespace

/-- Drop trailing JS whitespace from a character list. -/
def trimRightL (l : List Char) : List Char := (l.reverse.dropWhile jsWhitespace).reverse

/-- `String.prototype.trim`. -/
def jsTrim (s : String) : String := ⟨trimRightL (trimLeftL s.data)⟩

/-- ASCII lowercasing of one character (sufficient for `toLowerCase` on the
regex-validated addresses, which are ASCII). -/
def jsLowerChar (c : Char) : Char :=
  if 'A' ≤ c ∧ c ≤ 'Z' then Char.ofNat (c.toNat + 32) else c

/-- `String.prototype.toLowerCase`. -/
def jsToLower (s : String) : String := ⟨s.data.map jsLowerChar⟩

/-- One hex digit: `[0-9a-fA-F]`. -/
def isHexDigit (c : Char) : Bool :=
  ('0' ≤ c && c ≤ '9') || ('a' ≤ c && c ≤ 'f') || ('A' ≤ c && c ≤ 'F')

/-- `ADDRESS_REGEX.test`: does the string match `^0x[a-fA-F0-9]{40}$`? -/
def addressRegexTest (s : String) : Bool :=
  s.data.length = 42 && s.data.take 2 = ['0', 'x'] && (s.data.drop 2).all isHexDigit

/-! ## baseAddresses.ts -/

/-- `BASE_ADDRESSES` from `src/lib/baseAddresses.ts`: the checked-in list is
empty (a placeholder for pasted allowlist addresses). -/
def BASE_ADDRESSES : List String := []

/-- `BASE_SET = new Set(BASE_ADDRESSES.map(a => a.trim().toLowerCase()))`. -/
def BASE_SET : List String := BASE_ADDRESSES.map (fun a => jsToLower (jsTrim a))

/-! ## Request parsing -/

/-- JavaScript truthiness test on an optional body (`!body`):
`undefined`, `null`, `false`, `0` and `""` are falsy. -/
def jsFalsy : Option Js → Bool
  | none => true
  | some .jNull => true
  | some (.jBool b) => !b
  | some (.jNum n) => n == 0
  | some (.jStr s) => s == ""
  | some (.jArr _) => false
  | some (.jObj _) => false

/-- Property lookup on a JS object literal (first binding wins). -/
def lookupField : List (String × Js) → String → Option Js
  | [], _ => none
  | (k, v) :: rest, key => if k = key then some v else lookupField rest key

/-- `parseAddress` from `monad-address.ts` / `part_000` (identical in all
variants): extract and trim the `address` field from the body, returning `""`
for every shape that does not carry a string address.  A string body goes
through `JSON.parse` (modelled by `env.jsonParse`; `none` is a parse throw,
and a non-object parse result yields `""` exactly as the code does — either
`parsed.address` is `undefined` or accessing it throws into the `catch`). -/
def parseAddress (env : Env) (req : ApiRequest) : String :=
  if jsFalsy req.body then ""
  else
    match req.body with
    | none => ""
    | some (.jObj fields) =>
        match lookupField fields "address" with
        | some (.jStr s) => jsTrim s
        | some _ => ""
        | none => ""
    | some (.jArr _) => ""
    | some (.jStr s) =>
        match env.jsonParse s with
        | some (.jObj fields) =>
            match lookupField fields "address" with
            | some (.jStr t) => jsTrim t
            | _ => ""
        | _ => ""
    | some _ => ""

/-! ## Storage operations -/

/-- `hasKvConfig`: both `KV_REST_API_URL` and `KV_REST_API_TOKEN` are set. -/
def hasKvConfig (env : Env) : Bool := env.kvUrl && env.kvToken

/-- `kv.sadd("we:confirmed", a)`: add to the set, returning the number of
elements actually added (0 if already present). -/
def kvSadd (st : KvState) (a : String) : KvState × Nat :=
  if a ∈ st.confirmed then (st, 0) else (⟨st.confirmed ++ [a]⟩, 1)

/-- `storeConfirmedAddress` (identical in both `monad-address.ts` variants):
without KV config, report not-inserted without touching the store; otherwise
attempt a single `sadd`, which may throw (`Except.error` with the error's
message).  The `Nat` counts attempted writes to the confirmed set. -/
def storeConfirmedAddress (env : Env) (st : KvState) (address : String) :
    Except String Bool × KvState × Nat :=
  if hasKvConfig env then
    if env.kvUp then
      (.ok (decide ((kvSadd st address).2 > 0)), (kvSadd st address).1, 1)
    else (.error env.kvErrMsg, st, 1)
  else (.ok false, st, 0)

/-- `isAllowlisted` from the second `monad-address.ts` variant: with a
database URL configured, look the address up in `allowlist_addresses`
(connection or query failure throws); otherwise fall back to `BASE_SET`. -/
def isAllowlisted (env : Env) (address : String) : Except String Bool :=
  if env.dbConfigured then
    if env.dbUp then .ok (decide (address ∈ env.allowTable))
    else .error env.dbErrMsg
  else .ok (decide (address ∈ BASE_SET))

/-! ## Header helpers (part_000) -/

/-- Header lookup (`req.headers[name]`). -/
def lookupHeader : List (String × HeaderVal) → String → Option HeaderVal
  | [], _ => none
  | (k, v) :: rest, name => if k = name then some v else lookupHeader rest name

/-- `getIp`: first comma-separated entry of a non-empty string
`x-forwarded-for` header, trimmed; otherwise `""`. -/
def getIp (req : ApiRequest) : String :=
  match lookupHeader req.headers "x-forwarded-for" with
  | some (.one s) => if s.length > 0 then jsTrim ((s.splitOn ",").headD "") else ""
  | _ => ""

/-- `getUserAgent`: the `user-agent` header when it is a single string. -/
def getUserAgent (req : ApiRequest) : String :=
  match lookupHeader req.headers "user-agent" with
  | some (.one s) => s
  | _ => ""

/-! ## Response payloads -/

/-- `{ ok: false, error: "Method not allowed. Use POST." }` -/
def methodNotAllowedPayload : JsonPayload :=
  { ok := false, error := some "Method not allowed. Use POST." }

/-- `{ ok: false, error: "Invalid Monad EVM address format." }` -/
def invalidFormatPayload : JsonPayload :=
  { ok := false, error := some "Invalid Monad EVM address format." }

/-! ## The three handler variants -/

/-- The first `monad-address.ts` handler: POST-only; regex-validate the
parsed address; lowercase it; check `BASE_SET`; on success do the single
idempotent KV insert; a thrown storage error is caught and mapped to 500. -/
def handler1 (env : Env) (st : KvState) (req : ApiRequest) :
    HandlerResult × KvState × Nat :=
  if req.method ≠ some "POST" then
    (⟨405, methodNotAllowedPayload⟩, st, 0)
  else if ¬ addressRegexTest (parseAddress env req) then
    (⟨400, invalidFormatPayload⟩, st, 0)
  else if ¬ decide (jsToLower (parseAddress env req) ∈ BASE_SET) then
    (⟨200, { ok := true, verified := some false }⟩, st, 0)
  else
    match storeConfirmedAddress env st (jsToLower (parseAddress env req)) with
    | (.ok inserted, st2, n) =>
        (⟨200, { ok := true, verified := some true, inserted := some inserted }⟩, st2, n)
    | (.error msg, st2, n) =>
        (⟨500, { ok := false, error := some msg }⟩, st2, n)

/-- The second `monad-address.ts` handler: like `handler1` but the allowlist
check goes through `isAllowlisted` (Postgres table, `BASE_SET` fallback), a
failed check answers 400 `{ ok: false, error: "error", verified: false }`,
and an allowlist-lookup throw is caught and mapped to 500. -/
def handler2 (env : Env) (st : KvState) (req : ApiRequest) :
    HandlerResult × KvState × Nat :=
  if req.method ≠ some "POST" then
    (⟨405, methodNotAllowedPayload⟩, st, 0)
  else if ¬ addressRegexTest (parseAddress env req) then
    (⟨400, invalidFormatPayload⟩, st, 0)
  else
    match isAllowlisted env (jsToLower (parseAddress env req)) with
    | .error msg => (⟨500, { ok := false, error := some msg }⟩, st, 0)
    | .ok verified =>
      if ¬ verified then
        (⟨400, { ok := false, verified := some false, error := some "error" }⟩, st, 0)
      else
        match storeConfirmedAddress env st (jsToLower (parseAddress env req)) with
        | (.ok inserted, st2, n) =>
            (⟨200, { ok := true, verified := some true, inserted := some inserted }⟩, st2, n)
        | (.error msg, st2, n) =>
            (⟨500, { ok := false, error := some msg }⟩, st2, n)

/-- The `part_000` handler: POST-only; regex-validate; require Postgres
config (500 otherwise); `CREATE TABLE IF NOT EXISTS`; then one
`INSERT ... ON CONFLICT (address) DO NOTHING RETURNING id` of the trimmed
(not lowercased) address with the caller's ip and user agent; `inserted`
reports whether a row was actually written; a thrown database error is
caught and mapped to 500. -/
def handler0 (env : Env) (st : PgState) (req : ApiRequest) :
    HandlerResult × PgState × Nat :=
  if req.method ≠ some "POST" then
    (⟨405, methodNotAllowedPayload⟩, st, 0)
  else if ¬ addressRegexTest (parseAddress env req) then
    (⟨400, invalidFormatPayload⟩, st, 0)
  else if ¬ env.pgUrl then
    (⟨500, { ok := false,
             error := some "Vercel Postgres is not configured. Connect Postgres in your Vercel dashboard and redeploy." }⟩,
     st, 0)
  else if ¬ env.pgUp then
    (⟨500, { ok := false, error := some env.pgErrMsg }⟩, st, 0)
  else if st.rows.any (fun r => r.address = parseAddress env req) then
    (⟨200, { ok := true, inserted := some false }⟩, ⟨true, st.rows⟩, 1)
  else
    (⟨200, { ok := true, inserted := some true }⟩,
     ⟨true, st.rows ++ [⟨parseAddress env req, getIp req, getUserAgent req⟩]⟩, 1)

/-! ## Whole-system runs (for reachable-state invariants) -/

/-- One handler invocation: which variant is called, with what environment
and request. -/
inductive Call where
  | c1 : Env → ApiRequest → Call
  | c2 : Env → ApiRequest → Call
  | c0 : Env → ApiRequest → Call

/-- The combined persistent state of both backends. -/
structure SysState where
  kvSt : KvState
  pgSt : PgState
deriving DecidableEq, Repr

/-- Apply a single handler call to the system state. -/
def applyCall (s : SysState) : Call → SysState
  | .c1 env req => { s with kvSt := (handler1 env s.kvSt req).2.1 }
  | .c2 env req => { s with kvSt := (handler2 env s.kvSt req).2.1 }
  | .c0 env req => { s with pgSt := (handler0 env s.pgSt req).2.1 }

/-- Both stores start empty. -/
def initState : SysState := ⟨⟨[]⟩, ⟨false, []⟩⟩

/-- Run a sequence of handler calls from the empty stores. -/
def runCalls (cs : List Call) : SysState := cs.foldl applyCall initState

/-- The malformed body shapes enumerated for `parseAddress`: absent body,
non-object non-string primitive, array, object without an `address` field or
with a non-string one, or a string body on which `JSON.parse` throws. -/
def malformedShape (env : Env) : Option Js → Bool
  | none => true
  | some .jNull => true
  | some (.jBool _) => true
  | some (.jNum _) => true
  | some (.jArr _) => true
  | some (.jObj fields) =>
      match lookupField fields "address" with
      | some (.jStr _) => false
      | some _ => true
      | none => true
  | some (.jStr s) => (env.jsonParse s).isNone

/-- Invariant of the KV confirmed set: no duplicates, and every member is
already in normalized (lowercase-fixed) form. -/
def KvInv (st : KvState) : Prop :=
  st.confirmed.Nodup ∧ ∀ x ∈ st.confirmed, jsToLower x = x

/-- Invariant of the Postgres table: pairwise-distinct address column. -/
def PgInv (st : PgState) : Prop := (st.rows.map PgRow.address).Nodup

/-- Combined store invariant. -/
def SysInv (s : SysState) : Prop := KvInv s.kvSt ∧ PgInv s.pgSt

/-! ## Concrete inputs used by witnesses and counterexamples -/

/-- A baseline environment: nothing configured, stores healthy, `JSON.parse`
rejecting everything. -/
def envBase : Env :=
  { kvUrl := false, kvToken := false, kvUp := true, kvErrMsg := "",
    dbConfigured := false, dbUp := true, dbErrMsg := "", allowTable := [],
    pgUrl := false, pgUp := true, pgErrMsg := "", jsonParse := fun _ => none }

/-- The spec's example address (40 hex digits, lowercase). -/
def addrLo : String := "0x1234567890123456789012345678901234567890"

/-- An address with uppercase hex digits. -/
def addrAB : String := "0xAB34567890123456789012345678901234567890"

/-- The lowercase form of `addrAB`. -/
def addrab : String := "0xab34567890123456789012345678901234567890"

/-- A POST request whose JSON body is `{ "address": a }`. -/
def mkPost (a : String) : ApiRequest :=
  ⟨some "POST", [], some (.jObj [("address", .jStr a)])⟩

/-- A GET request with no body. -/
def reqGet : ApiRequest := ⟨some "GET", [], none⟩

/-- Environment with KV and the Postgres allowlist configured and healthy,
the allowlist containing the example address. -/
def envKvDb : Env :=
  { envBase with kvUrl := true, kvToken := true, dbConfigured := true, allowTable := [addrLo] }

/-- Environment with the allowlist configured but KV unconfigured. -/
def envNoKv : Env :=
  { envBase with dbConfigured := true, allowTable := [addrLo] }

/-- Environment with KV configured but the KV service down. -/
def envKvDown : Env :=
  { envKvDb with kvUp := false, kvErrMsg := "connect ECONNREFUSED" }

/-- Environment for the Postgres-only handler. -/
def envPg : Env := { envBase with pgUrl := true }

/-! ## Character and string lemmas -/

theorem char_le_toNat {a b : Char} : a ≤ b ↔ a.toNat ≤ b.toNat := Iff.rfl

theorem char_toNat_ofNat (n : Nat) (h : n.isValidChar) : (Char.ofNat n).toNat = n := by
  rw [Char.ofNat, dif_pos h]
  rfl

theorem jsLowerChar_idem (c : Char) : jsLowerChar (jsLowerChar c) = jsLowerChar c := by
  unfold jsLowerChar
  by_cases h : 'A' ≤ c ∧ c ≤ 'Z'
  · rw [if_pos h]
    have h1 : 65 ≤ c.toNat := char_le_toNat.mp h.1
    have h2 : c.toNat ≤ 90 := char_le_toNat.mp h.2
    have hv : (c.toNat + 32).isValidChar := Or.inl (by omega)
    have ht : (Char.ofNat (c.toNat + 32)).toNat = c.toNat + 32 := char_toNat_ofNat _ hv
    rw [if_neg]
    intro hcon
    have hle := char_le_toNat.mp hcon.2
    have hz : ('Z').toNat = 90 := rfl
    rw [ht, hz] at hle
    omega
  · rw [if_neg h, if_neg h]

theorem jsToLower_idem (s : String) : jsToLower (jsToLower s) = jsToLower s := by
  unfold jsToLower
  apply congrArg String.mk
  rw [List.map_map]
  exact List.map_congr_left (fun a _ => jsLowerChar_idem a)

theorem trimLeftL_append_of_ws {p : List Char} (l : List Char)
    (hp : ∀ c ∈ p, jsWhitespace c = true) : trimLeftL (p ++ l) = trimLeftL l :=
  List.dropWhile_append_of_pos hp

theorem trimLeftL_eq_nil_of_ws {p : List Char}
    (hp : ∀ c ∈ p, jsWhitespace c = true) : trimLeftL p = [] := by
  have h := trimLeftL_append_of_ws (p := p) [] hp
  simpa [trimLeftL] using h

theorem trimRightL_append_of_ws (l : List Char) {q : List Char}
    (hq : ∀ c ∈ q, jsWhitespace c = true) : trimRightL (l ++ q) = trimRightL l := by
  unfold trimRightL
  rw [List.reverse_append]
  rw [List.dropWhile_append_of_pos (fun c hc => hq c (List.mem_reverse.mp hc))]

theorem jsTrimL_pad (p l q : List Char)
    (hp : ∀ c ∈ p, jsWhitespace c = true) (hq : ∀ c ∈ q, jsWhitespace c = true) :
    trimRightL (trimLeftL (p ++ l ++ q)) = trimRightL (trimLeftL l) := by
  rw [List.append_assoc, trimLeftL_append_of_ws (l ++ q) hp]
  unfold trimLeftL
  rw [List.dropWhile_append]
  by_cases h : (l.dropWhile jsWhitespace).isEmpty
  · rw [if_pos h]
    have hl : l.dropWhile jsWhitespace = [] := List.isEmpty_iff.mp h
    have hqnil : trimLeftL q = [] := trimLeftL_eq_nil_of_ws hq
    unfold trimLeftL at hqnil
    rw [hqnil, hl]
  · rw [if_neg h]
    exact trimRightL_append_of_ws _ hq

theorem string_data_append (a b : String) : (a ++ b).data = a.data ++ b.data := rfl

theorem jsTrim_pad (p s q : String)
    (hp : ∀ c ∈ p.data, jsWhitespace c = true) (hq : ∀ c ∈ q.data, jsWhitespace c = true) :
    jsTrim (p ++ s ++ q) = jsTrim s := by
  unfold jsTrim
  apply congrArg String.mk
  rw [string_data_append, string_data_append]
  exact jsTrimL_pad p.data s.data q.data hp hq

theorem addressRegexTest_length {s : String} (h : addressRegexTest s = true) :
    s.data.length = 42 := by
  unfold addressRegexTest at h
  simp only [Bool.and_eq_true, decide_eq_true_eq] at h
  exact h.1.1

/-! ## Branch lemmas for the storage operation -/

theorem store_noconfig (env : Env) (st : KvState) (a : String)
    (h : hasKvConfig env = false) :
    storeConfirmedAddress env st a = (.ok false, st, 0) := by
  unfold storeConfirmedAddress
  rw [if_neg (by simp [h])]

theorem store_insert (env : Env) (st : KvState) (a : String)
    (h : hasKvConfig env = true) (hu : env.kvUp = true) (hn : a ∉ st.confirmed) :
    storeConfirmedAddress env st a = (.ok true, ⟨st.confirmed ++ [a]⟩, 1) := by
  unfold storeConfirmedAddress kvSadd
  rw [if_pos h, if_pos hu, if_neg hn]
  rfl

theorem store_dup (env : Env) (st : KvState) (a : String)
    (h : hasKvConfig env = true) (hu : env.kvUp = true) (hd : a ∈ st.confirmed) :
    storeConfirmedAddress env st a = (.ok false, st, 1) := by
  unfold storeConfirmedAddress kvSadd
  rw [if_pos h, if_pos hu, if_pos hd]
  rfl

theorem store_throw (env : Env) (st : KvState) (a : String)
    (h : hasKvConfig env = true) (hu : env.kvUp = false) :
    storeConfirmedAddress env st a = (.error env.kvErrMsg, st, 1) := by
  unfold storeConfirmedAddress
  rw [if_pos h, if_neg (by simp [hu])]

/-! ## Branch lemmas for handler1 -/

theorem handler1_not_post (env : Env) (st : KvState) (req : ApiRequest)
    (hm : req.method ≠ some "POST") :
    handler1 env st req = (⟨405, methodNotAllowedPayload⟩, st, 0) := by
  unfold handler1
  rw [if_pos hm]

theorem handler1_invalid (env : Env) (st : KvState) (req : ApiRequest)
    (hm : req.method = some "POST")
    (hv : addressRegexTest (parseAddress env req) = false) :
    handler1 env st req = (⟨400, invalidFormatPayload⟩, st, 0) := by
  unfold handler1
  rw [if_neg (by simp [hm]), if_pos (by simp [hv])]

theorem handler1_not_allowed (env : Env) (st : KvState) (req : ApiRequest)
    (hm : req.method = some "POST")
    (hv : addressRegexTest (parseAddress env req) = true)
    (hna : jsToLower (parseAddress env req) ∉ BASE_SET) :
    handler1 env st req = (⟨200, { ok := true, verified := some false }⟩, st, 0) := by
  unfold handler1
  rw [if_neg (by simp [hm]), if_neg (by simp [hv]), if_pos (by simp [hna])]

/-! ## Branch lemmas for handler2 -/

theorem handler2_not_post (env : Env) (st : KvState) (req : ApiRequest)
    (hm : req.method ≠ some "POST") :
    handler2 env st req = (⟨405, methodNotAllowedPayload⟩, st, 0) := by
  unfold handler2
  rw [if_pos hm]

theorem handler2_invalid (env : Env) (st : KvState) (req : ApiRequest)
    (hm : req.method = some "POST")
    (hv : addressRegexTest (parseAddress env req) = false) :
    handler2 env st req = (⟨400, invalidFormatPayload⟩, st, 0) := by
  unfold handler2
  rw [if_neg (by simp [hm]), if_pos (by simp [hv])]

theorem handler2_db_error (env : Env) (st : KvState) (req : ApiRequest) (msg : String)
    (hm : req.method = some "POST")
    (hv : addressRegexTest (parseAddress env req) = true)
    (he : isAllowlisted env (jsToLower (parseAddress env req)) = .error msg) :
    handler2 env st req = (⟨500, { ok := false, error := some msg }⟩, st, 0) := by
  unfold handler2
  rw [if_neg (by simp [hm]), if_neg (by simp [hv]), he]

theorem handler2_not_allowed (env : Env) (st : KvState) (req : ApiRequest)
    (hm : req.method = some "POST")
    (hv : addressRegexTest (parseAddress env req) = true)
    (hna : isAllowlisted env (jsToLower (parseAddress env req)) = .ok false) :
    handler2 env st req =
      (⟨400, { ok := false, verified := some false, error := some "error" }⟩, st, 0) := by
  unfold handler2
  rw [if_neg (by simp [hm]), if_neg (by simp [hv]), hna]
  rfl

theorem handler2_noconfig (env : Env) (st : KvState) (req : ApiRequest)
    (hm : req.method = some "POST")
    (hv : addressRegexTest (parseAddress env req) = true)
    (hal : isAllowlisted env (jsToLower (parseAddress env req)) = .ok true)
    (hk : hasKvConfig env = false) :
    handler2 env st req =
      (⟨200, { ok := true, verified := some true, inserted := some false }⟩, st, 0) := by
  unfold handler2
  rw [if_neg (by simp [hm]), if_neg (by simp [hv]), hal, store_noconfig env st _ hk]
  rfl

theorem handler2_insert (env : Env) (st : KvState) (req : ApiRequest)
    (hm : req.method = some "POST")
    (hv : addressRegexTest (parseAddress env req) = true)
    (hal : isAllowlisted env (jsToLower (parseAddress env req)) = .ok true)
    (hk : hasKvConfig env = true) (hu : env.kvUp = true)
    (hn : jsToLower (parseAddress env req) ∉ st.confirmed) :
    handler2 env st req =
      (⟨200, { ok := true, verified := some true, inserted := some true }⟩,
       ⟨st.confirmed ++ [jsToLower (parseAddress env req)]⟩, 1) := by
  unfold handler2
  rw [if_neg (by simp [hm]), if_neg (by simp [hv]), hal, store_insert env st _ hk hu hn]
  rfl

theorem handler2_dup (env : Env) (st : KvState) (req : ApiRequest)
    (hm : req.method = some "POST")
    (hv : addressRegexTest (parseAddress env req) = true)
    (hal : isAllowlisted env (jsToLower (parseAddress env req)) = .ok true)
    (hk : hasKvConfig env = true) (hu : env.kvUp = true)
    (hd : jsToLower (parseAddress env req) ∈ st.confirmed) :
    handler2 env st req =
      (⟨200, { ok := true, verified := some true, inserted := some false }⟩, st, 1) := by
  unfold handler2
  rw [if_neg (by simp [hm]), if_neg (by simp [hv]), hal, store_dup env st _ hk hu hd]
  rfl

theorem handler2_kvdown (env : Env) (st : KvState) (req : ApiRequest)
    (hm : req.method = some "POST")
    (hv : addressRegexTest (parseAddress env req) = true)
    (hal : isAllowlisted env (jsToLower (parseAddress env req)) = .ok true)
    (hk : hasKvConfig env = true) (hu : env.kvUp = false) :
    handler2 env st req =
      (⟨500, { ok := false, error := some env.kvErrMsg }⟩, st, 1) := by
  unfold handler2
  rw [if_neg (by simp [hm]), if_neg (by simp [hv]), hal, store_throw env st _ hk hu]
  rfl

theorem handler1_insert (env : Env) (st : KvState) (req : ApiRequest)
    (hm : req.method = some "POST")
    (hv : addressRegexTest (parseAddress env req) = true)
    (hal : jsToLower (parseAddress env req) ∈ BASE_SET)
    (hk : hasKvConfig env = true) (hu : env.kvUp = true)
    (hn : jsToLower (parseAddress env req) ∉ st.confirmed) :
    handler1 env st req =
      (⟨200, { ok := true, verified := some true, inserted := some true }⟩,
       ⟨st.confirmed ++ [jsToLower (parseAddress env req)]⟩, 1) := by
  unfold handler1
  rw [if_neg (by simp [hm]), if_neg (by simp [hv]), if_neg (by simp [hal]),
      store_insert env st _ hk hu hn]

/-! ## Branch lemmas for handler0 -/

theorem handler0_not_post (env : Env) (st : PgState) (req : ApiRequest)
    (hm : req.method ≠ some "POST") :
    handler0 env st req = (⟨405, methodNotAllowedPayload⟩, st, 0) := by
  unfold handler0
  rw [if_pos hm]

theorem handler0_invalid (env : Env) (st : PgState) (req : ApiRequest)
    (hm : req.method = some "POST")
    (hv : addressRegexTest (parseAddress env req) = false) :
    handler0 env st req = (⟨400, invalidFormatPayload⟩, st, 0) := by
  unfold handler0
  rw [if_neg (by simp [hm]), if_pos (by simp [hv])]

theorem handler0_noconfig (env : Env) (st : PgState) (req : ApiRequest)
    (hm : req.method = some "POST")
    (hv : addressRegexTest (parseAddress env req) = true)
    (hp : env.pgUrl = false) :
    handler0 env st req =
      (⟨500, { ok := false,
               error := some "Vercel Postgres is not configured. Connect Postgres in your Vercel dashboard and redeploy." }⟩,
       st, 0) := by
  unfold handler0
  rw [if_neg (by simp [hm]), if_neg (by simp [hv]), if_pos (by simp [hp])]

theorem handler0_pgdown (env : Env) (st : PgState) (req : ApiRequest)
    (hm : req.method = some "POST")
    (hv : addressRegexTest (parseAddress env req) = true)
    (hp : env.pgUrl = true) (hu : env.pgUp = false) :
    handler0 env st req = (⟨500, { ok := false, error := some env.pgErrMsg }⟩, st, 0) := by
  unfold handler0
  rw [if_neg (by simp [hm]), if_neg (by simp [hv]), if_neg (by simp [hp]),
      if_pos (by simp [hu])]

theorem handler0_dup (env : Env) (st : PgState) (req : ApiRequest)
    (hm : req.method = some "POST")
    (hv : addressRegexTest (parseAddress env req) = true)
    (hp : env.pgUrl = true) (hu : env.pgUp = true)
    (hd : st.rows.any (fun r => r.address = parseAddress env req) = true) :
    handler0 env st req =
      (⟨200, { ok := true, inserted := some false }⟩, ⟨true, st.rows⟩, 1) := by
  unfold handler0
  rw [if_neg (by simp [hm]), if_neg (by simp [hv]), if_neg (by simp [hp]),
      if_neg (by simp [hu]), if_pos hd]

theorem handler0_insert (env : Env) (st : PgState) (req : ApiRequest)
    (hm : req.method = some "POST")
    (hv : addressRegexTest (parseAddress env req) = true)
    (hp : env.pgUrl = true) (hu : env.pgUp = true)
    (hd : st.rows.any (fun r => r.address = parseAddress env req) = false) :
    handler0 env st req =
      (⟨200, { ok := true, inserted := some true }⟩,
       ⟨true, st.rows ++ [⟨parseAddress env req, getIp req, getUserAgent req⟩]⟩, 1) := by
  unfold handler0
  rw [if_neg (by simp [hm]), if_neg (by simp [hv]), if_neg (by simp [hp]),
      if_neg (by simp [hu]), if_neg (by simp [hd])]

/-! ## Congruence: the handlers read a request only through its method,
its parsed address, and (handler0) its client headers -/

theorem handler1_congr (env : Env) (st : KvState) (r1 r2 : ApiRequest)
    (hm : r1.method = r2.method)
    (hp : parseAddress env r1 = parseAddress env r2) :
    handler1 env st r1 = handler1 env st r2 := by
  unfold handler1
  rw [hm, hp]

theorem handler2_congr (env : Env) (st : KvState) (r1 r2 : ApiRequest)
    (hm : r1.method = r2.method)
    (hp : parseAddress env r1 = parseAddress env r2) :
    handler2 env st r1 = handler2 env st r2 := by
  unfold handler2
  rw [hm, hp]

/-! ## Frame lemmas: writes and state shapes -/

theorem store_writes (env : Env) (st : KvState) (a : String) :
    (storeConfirmedAddress env st a).2.2 ≤ 1 := by
  unfold storeConfirmedAddress kvSadd
  split
  · split
    · split <;> simp
    · simp
  · simp

theorem store_state_cases (env : Env) (st : KvState) (a : String) :
    (storeConfirmedAddress env st a).2.1 = st ∨
      (a ∉ st.confirmed ∧ (storeConfirmedAddress env st a).2.1 = ⟨st.confirmed ++ [a]⟩) := by
  unfold storeConfirmedAddress kvSadd
  split
  · split
    · split
      · left; rfl
      · right; exact ⟨by assumption, rfl⟩
    · left; rfl
  · left; rfl

theorem handler1_writes (env : Env) (st : KvState) (req : ApiRequest) :
    (handler1 env st req).2.2 ≤ 1 := by
  unfold handler1
  split
  · simp
  · split
    · simp
    · split
      · simp
      · have hb := store_writes env st (jsToLower (parseAddress env req))
        rcases h : storeConfirmedAddress env st (jsToLower (parseAddress env req)) with ⟨e, st2, n⟩
        rw [h] at hb
        cases e <;> simpa using hb

theorem handler1_state_cases (env : Env) (st : KvState) (req : ApiRequest) :
    (handler1 env st req).2.1 = st ∨
      (jsToLower (parseAddress env req) ∉ st.confirmed ∧
        (handler1 env st req).2.1 = ⟨st.confirmed ++ [jsToLower (parseAddress env req)]⟩) := by
  unfold handler1
  split
  · left; rfl
  · split
    · left; rfl
    · split
      · left; rfl
      · have hs := store_state_cases env st (jsToLower (parseAddress env req))
        rcases h : storeConfirmedAddress env st (jsToLower (parseAddress env req)) with ⟨e, st2, n⟩
        rw [h] at hs
        cases e with
        | ok b => simpa using hs
        | error m => simpa using hs

theorem handler2_writes (env : Env) (st : KvState) (req : ApiRequest) :
    (handler2 env st req).2.2 ≤ 1 := by
  unfold handler2
  split
  · simp
  · split
    · simp
    · split
      · simp
      · split
        · simp
        · have hb := store_writes env st (jsToLower (parseAddress env req))
          rcases h : storeConfirmedAddress env st (jsToLower (parseAddress env req)) with ⟨e, st2, n⟩
          rw [h] at hb
          cases e <;> simpa using hb

theorem handler2_state_cases (env : Env) (st : KvState) (req : ApiRequest) :
    (handler2 env st req).2.1 = st ∨
      (jsToLower (parseAddress env req) ∉ st.confirmed ∧
        (handler2 env st req).2.1 = ⟨st.confirmed ++ [jsToLower (parseAddress env req)]⟩) := by
  unfold handler2
  split
  · left; rfl
  · split
    · left; rfl
    · split
      · left; rfl
      · split
        · left; rfl
        · have hs := store_state_cases env st (jsToLower (parseAddress env req))
          rcases h : storeConfirmedAddress env st (jsToLower (parseAddress env req)) with ⟨e, st2, n⟩
          rw [h] at hs
          cases e with
          | ok b => simpa using hs
          | error m => simpa using hs

theorem handler0_rows_cases (env : Env) (st : PgState) (req : ApiRequest) :
    (handler0 env st req).2.1.rows = st.rows ∨
      ((∀ r ∈ st.rows, r.address ≠ parseAddress env req) ∧
        (handler0 env st req).2.1.rows =
          st.rows ++ [⟨parseAddress env req, getIp req, getUserAgent req⟩]) := by
  unfold handler0
  split
  · left; rfl
  · split
    · left; rfl
    · split
      · left; rfl
      · split
        · left; rfl
        · split
          · left; rfl
          · next h4 =>
            right
            refine ⟨?_, rfl⟩
            have h5 : ¬ ∃ r ∈ st.rows, r.address = parseAddress env req := by
              simpa [List.any_eq_true] using h4
            push_neg at h5
            exact h5

theorem handler0_writes (env : Env) (st : PgState) (req : ApiRequest) :
    (handler0 env st req).2.2 ≤ 1 := by
  unfold handler0
  split
  · simp
  · split
    · simp
    · split
      · simp
      · split
        · simp
        · split <;> simp

/-! ## Reachable-state invariants -/

theorem kvInv_step (st : KvState) (a : String)
    (hInv : KvInv st) (hn : a ∉ st.confirmed) (hfix : jsToLower a = a) :
    KvInv ⟨st.confirmed ++ [a]⟩ := by
  constructor
  · simp [List.nodup_append, hInv.1, hn]
  · intro x hx
    rcases List.mem_append.mp hx with hx | hx
    · exact hInv.2 x hx
    · rw [List.mem_singleton.mp hx]
      exact hfix

theorem handler1_preserves_KvInv (env : Env) (st : KvState) (req : ApiRequest)
    (hInv : KvInv st) : KvInv (handler1 env st req).2.1 := by
  rcases handler1_state_cases env st req with h | ⟨hn, h⟩
  · rw [h]; exact hInv
  · rw [h]
    exact kvInv_step st _ hInv hn (jsToLower_idem _)

theorem handler2_preserves_KvInv (env : Env) (st : KvState) (req : ApiRequest)
    (hInv : KvInv st) : KvInv (handler2 env st req).2.1 := by
  rcases handler2_state_cases env st req with h | ⟨hn, h⟩
  · rw [h]; exact hInv
  · rw [h]
    exact kvInv_step st _ hInv hn (jsToLower_idem _)

theorem handler0_preserves_PgInv (env : Env) (st : PgState) (req : ApiRequest)
    (hInv : PgInv st) : PgInv (handler0 env st req).2.1 := by
  rcases handler0_rows_cases env st req with h | ⟨hn, h⟩
  · unfold PgInv
    rw [h]
    exact hInv
  · unfold PgInv
    rw [h, List.map_append]
    simp only [List.map_cons, List.map_nil]
    rw [List.nodup_append]
    refine ⟨hInv, List.nodup_singleton _, ?_⟩
    intro x hx
    rcases List.mem_map.mp hx with ⟨r, hr, hrx⟩
    simp only [List.mem_singleton]
    intro hcontra
    exact hn r hr (hrx.trans hcontra)

theorem applyCall_preserves_SysInv (s : SysState) (c : Call)
    (hInv : SysInv s) : SysInv (applyCall s c) := by
  cases c with
  | c1 env req => exact ⟨handler1_preserves_KvInv env s.kvSt req hInv.1, hInv.2⟩
  | c2 env req => exact ⟨handler2_preserves_KvInv env s.kvSt req hInv.1, hInv.2⟩
  | c0 env req => exact ⟨hInv.1, handler0_preserves_PgInv env s.pgSt req hInv.2⟩

theorem foldl_preserves_SysInv (cs : List Call) :
    ∀ s : SysState, SysInv s → SysInv (cs.foldl applyCall s) := by
  induction cs with
  | nil => intro s h; exact h
  | cons c rest ih =>
      intro s h
      exact ih (applyCall s c) (applyCall_preserves_SysInv s c h)

theorem runCalls_SysInv (cs : List Call) : SysInv (runCalls cs) := by
  unfold runCalls
  exact foldl_preserves_SysInv cs initState (by constructor <;> simp [KvInv, PgInv, initState])

theorem applyCall_extends (s : SysState) (c : Call) :
    (∃ t1, (applyCall s c).kvSt.confirmed = s.kvSt.confirmed ++ t1) ∧
    (∃ t2, (applyCall s c).pgSt.rows = s.pgSt.rows ++ t2) := by
  cases c with
  | c1 env req =>
      constructor
      · rcases handler1_state_cases env s.kvSt req with h | ⟨_, h⟩
        · exact ⟨[], by simp [applyCall, h]⟩
        · exact ⟨[jsToLower (parseAddress env req)], by simp [applyCall, h]⟩
      · exact ⟨[], by simp [applyCall]⟩
  | c2 env req =>
      constructor
      · rcases handler2_state_cases env s.kvSt req with h | ⟨_, h⟩
        · exact ⟨[], by simp [applyCall, h]⟩
        · exact ⟨[jsToLower (parseAddress env req)], by simp [applyCall, h]⟩
      · exact ⟨[], by simp [applyCall]⟩
  | c0 env req =>
      constructor
      · exact ⟨[], by simp [applyCall]⟩
      · rcases handler0_rows_cases env s.pgSt req with h | ⟨_, h⟩
        · exact ⟨[], by simp [applyCall, h]⟩
        · exact ⟨[⟨parseAddress env req, getIp req, getUserAgent req⟩], by simp [applyCall, h]⟩

theorem runCalls_append_one (cs : List Call) (c : Call) :
    runCalls (cs ++ [c]) = applyCall (runCalls cs) c := by
  unfold runCalls
  rw [List.foldl_append]
  rfl

/-! ## parseAddress characterization -/

theorem parseAddress_obj (env : Env) (m : Option String) (hs : List (String × HeaderVal))
    (s : String) :
    parseAddress env ⟨m, hs, some (.jObj [("address", .jStr s)])⟩ = jsTrim s := rfl

theorem parseAddress_malformed (env : Env) (req : ApiRequest)
    (h : malformedShape env req.body = true) : parseAddress env req = "" := by
  unfold parseAddress
  cases hb : req.body with
  | none => simp [jsFalsy]
  | some v =>
    rw [hb] at h
    cases v with
    | jNull => simp [jsFalsy]
    | jBool b => cases b <;> simp [jsFalsy]
    | jNum n => by_cases hn : n = 0 <;> simp [jsFalsy, hn]
    | jArr l => simp [jsFalsy]
    | jStr s =>
        simp only [malformedShape, Option.isNone_iff_eq_none] at h
        by_cases hs : s = ""
        · simp [jsFalsy, hs]
        · simp [jsFalsy, hs, h]
    | jObj fields =>
        simp only [malformedShape] at h
        cases hl : lookupField fields "address" with
        | none => simp [jsFalsy, hl]
        | some v2 =>
            rw [hl] at h
            cases v2 <;> simp_all [jsFalsy, hl]

theorem addressRegexTest_padded (p s q : String)
    (hs : addressRegexTest s = true) (hlen : 0 < p.length + q.length) :
    addressRegexTest (p ++ s ++ q) = false := by
  have h42 := addressRegexTest_length hs
  by_contra hcon
  have htrue : addressRegexTest (p ++ s ++ q) = true := by
    cases hx : addressRegexTest (p ++ s ++ q)
    · exact absurd hx hcon
    · rfl
  have hl := addressRegexTest_length htrue
  rw [string_data_append, string_data_append] at hl
  simp only [List.length_append] at hl
  have hp : p.length = p.data.length := rfl
  have hq : q.length = q.data.length := rfl
  rw [hp, hq] at hlen
  omega

/-! ## Claim theorems -/

/-- Claim C1: a valid, allowlisted address submitted twice (with the
confirmed set initially not containing it) gets HTTP 200 with
`inserted: true` on the first call and HTTP 200 with `inserted: false` on
the second, both reporting `ok: true`: the second insertion is a no-op, not
an error.  Stated for `handler2`, whose allowlist is the configured
`allowlist_addresses` table. -/
theorem claim_C1 (env : Env) (st : KvState) (req : ApiRequest)
    (hm : req.method = some "POST")
    (hv : addressRegexTest (parseAddress env req) = true)
    (hdb : env.dbConfigured = true) (hdbu : env.dbUp = true)
    (hallow : jsToLower (parseAddress env req) ∈ env.allowTable)
    (hk : hasKvConfig env = true) (hu : env.kvUp = true)
    (hnew : jsToLower (parseAddress env req) ∉ st.confirmed) :
    (handler2 env st req).1 =
      ⟨200, { ok := true, verified := some true, inserted := some true }⟩ ∧
    (handler2 env (handler2 env st req).2.1 req).1 =
      ⟨200, { ok := true, verified := some true, inserted := some false }⟩ := by
  have hal : isAllowlisted env (jsToLower (parseAddress env req)) = .ok true := by
    unfold isAllowlisted
    rw [if_pos (by simp [hdb]), if_pos (by simp [hdbu])]
    simp [hallow]
  have h1 := handler2_insert env st req hm hv hal hk hu hnew
  refine ⟨by rw [h1], ?_⟩
  have hst1 : (handler2 env st req).2.1 =
      ⟨st.confirmed ++ [jsToLower (parseAddress env req)]⟩ := by rw [h1]
  rw [hst1]
  have hdup : jsToLower (parseAddress env req) ∈
      (⟨st.confirmed ++ [jsToLower (parseAddress env req)]⟩ : KvState).confirmed := by simp
  rw [handler2_dup env _ req hm hv hal hk hu hdup]

/-- Witness for C1 at the spec's example address with the allowlist table
containing it, KV configured and healthy, and an empty confirmed set. -/
theorem claim_C1_witness :
    (handler2 envKvDb ⟨[]⟩ (mkPost addrLo)).1 =
      ⟨200, { ok := true, verified := some true, inserted := some true }⟩ ∧
    (handler2 envKvDb (handler2 envKvDb ⟨[]⟩ (mkPost addrLo)).2.1 (mkPost addrLo)).1 =
      ⟨200, { ok := true, verified := some true, inserted := some false }⟩ :=
  claim_C1 envKvDb ⟨[]⟩ (mkPost addrLo) rfl (by decide) rfl rfl (by decide) rfl rfl
    (by decide)

/-- Counterexample to claim C2: the first `monad-address.ts` handler
(`handler1`) answers a valid-format address that is not in its (empty)
`BASE_SET` allowlist with HTTP 200 and `ok: true` — a success report, not
the claimed HTTP 400 client error. -/
theorem claim_C2_counterexample :
    (handler1 envBase ⟨[]⟩ (mkPost addrLo)).1.status = 200 ∧
    (handler1 envBase ⟨[]⟩ (mkPost addrLo)).1.payload.ok = true ∧
    (handler1 envBase ⟨[]⟩ (mkPost addrLo)).1.payload.verified = some false := by
  decide

/-- Claim C2 as amended: in the second `monad-address.ts` variant
(`handler2`, Postgres-backed allowlist) a valid-format address whose
normalized form is absent from the allowlist table gets HTTP 400 with
`ok: false` and `verified: false`, and the store is untouched; the first
variant (`handler1`) instead answers HTTP 200 with `ok: true` and
`verified: false`. -/
theorem claim_C2 (env : Env) (st : KvState) (req : ApiRequest)
    (hm : req.method = some "POST")
    (hv : addressRegexTest (parseAddress env req) = true)
    (hdb : env.dbConfigured = true) (hdbu : env.dbUp = true)
    (hnotin : jsToLower (parseAddress env req) ∉ env.allowTable) :
    handler2 env st req =
      (⟨400, { ok := false, verified := some false, error := some "error" }⟩, st, 0) := by
  have hna : isAllowlisted env (jsToLower (parseAddress env req)) = .ok false := by
    unfold isAllowlisted
    rw [if_pos (by simp [hdb]), if_pos (by simp [hdbu])]
    simp [hnotin]
  exact handler2_not_allowed env st req hm hv hna

/-- Witness for the amended C2: an uppercase-hex address whose normalized
form is not in the allowlist table. -/
theorem claim_C2_witness :
    handler2 envNoKv ⟨[]⟩ (mkPost addrAB) =
      (⟨400, { ok := false, verified := some false, error := some "error" }⟩, ⟨[]⟩, 0) :=
  claim_C2 envNoKv ⟨[]⟩ (mkPost addrAB) rfl (by decide) rfl rfl (by decide)

/-- Claim C3: a POST whose extracted address fails `^0x[0-9a-fA-F]{40}$`
gets HTTP 400, `ok: false` and the "Invalid Monad EVM address format."
message from all three handler variants, with the store state returned
unchanged and zero write attempts; the result does not depend on the
allowlist or store contents (the environment and states are universally
quantified), so the allowlist check and the store are never reached. -/
theorem claim_C3 (env : Env) (st : KvState) (stp : PgState) (req : ApiRequest)
    (hm : req.method = some "POST")
    (hv : addressRegexTest (parseAddress env req) = false) :
    handler1 env st req = (⟨400, invalidFormatPayload⟩, st, 0) ∧
    handler2 env st req = (⟨400, invalidFormatPayload⟩, st, 0) ∧
    handler0 env stp req = (⟨400, invalidFormatPayload⟩, stp, 0) :=
  ⟨handler1_invalid env st req hm hv, handler2_invalid env st req hm hv,
   handler0_invalid env stp req hm hv⟩

/-- Witness for C3 at the spec's malformed example (`0xZZ34…`). -/
theorem claim_C3_witness :
    handler1 envBase ⟨[]⟩ (mkPost "0xZZ34567890123456789012345678901234567890") =
      (⟨400, invalidFormatPayload⟩, ⟨[]⟩, 0) ∧
    handler2 envBase ⟨[]⟩ (mkPost "0xZZ34567890123456789012345678901234567890") =
      (⟨400, invalidFormatPayload⟩, ⟨[]⟩, 0) ∧
    handler0 envBase ⟨false, []⟩ (mkPost "0xZZ34567890123456789012345678901234567890") =
      (⟨400, invalidFormatPayload⟩, ⟨false, []⟩, 0) :=
  claim_C3 envBase ⟨[]⟩ ⟨false, []⟩ (mkPost "0xZZ34567890123456789012345678901234567890")
    rfl (by decide)

/-- Claim C7: a request whose method is not POST gets HTTP 405 with
`ok: false` and the method-not-allowed message from all three handler
variants, with the store state returned unchanged and zero writes; the
result does not depend on the body or the environment, so the body is
never parsed and no store is touched. -/
theorem claim_C7 (env : Env) (st : KvState) (stp : PgState) (req : ApiRequest)
    (hm : req.method ≠ some "POST") :
    handler1 env st req = (⟨405, methodNotAllowedPayload⟩, st, 0) ∧
    handler2 env st req = (⟨405, methodNotAllowedPayload⟩, st, 0) ∧
    handler0 env stp req = (⟨405, methodNotAllowedPayload⟩, stp, 0) :=
  ⟨handler1_not_post env st req hm, handler2_not_post env st req hm,
   handler0_not_post env stp req hm⟩

/-- Witness for C7 on a GET request. -/
theorem claim_C7_witness :
    handler1 envBase ⟨[]⟩ reqGet = (⟨405, methodNotAllowedPayload⟩, ⟨[]⟩, 0) ∧
    handler2 envBase ⟨[]⟩ reqGet = (⟨405, methodNotAllowedPayload⟩, ⟨[]⟩, 0) ∧
    handler0 envBase ⟨false, []⟩ reqGet = (⟨405, methodNotAllowedPayload⟩, ⟨false, []⟩, 0) :=
  claim_C7 envBase ⟨[]⟩ ⟨false, []⟩ reqGet (by decide)

/-- Counterexample to claim C5: with the persistence store misconfigured
(KV env vars absent) a request that passed validation and the allowlist
check is answered with HTTP 200 and `ok: true, inserted: false` — not the
claimed HTTP 500 server error. -/
theorem claim_C5_counterexample :
    (handler2 envNoKv ⟨[]⟩ (mkPost addrLo)).1 =
      ⟨200, { ok := true, verified := some true, inserted := some false }⟩ ∧
    (handler2 envNoKv ⟨[]⟩ (mkPost addrLo)).1.status ≠ 500 := by
  decide

/-- Claim C5 as amended: when the persistence storage is *unavailable*
(the KV call throws) during a request that passed validation and the
allowlist check, the handler answers HTTP 500 with `ok: false` and the
error's message string; the error is caught at the boundary (a response is
produced), the single write attempt is not retried, and the store state is
unchanged.  When KV is merely *unconfigured*, the write is silently
skipped and the handler answers HTTP 200 with `inserted: false`. -/
theorem claim_C5 (env : Env) (st : KvState) (req : ApiRequest)
    (hm : req.method = some "POST")
    (hv : addressRegexTest (parseAddress env req) = true)
    (hdb : env.dbConfigured = true) (hdbu : env.dbUp = true)
    (hallow : jsToLower (parseAddress env req) ∈ env.allowTable)
    (hk : hasKvConfig env = true) (hdown : env.kvUp = false) :
    handler2 env st req = (⟨500, { ok := false, error := some env.kvErrMsg }⟩, st, 1) := by
  have hal : isAllowlisted env (jsToLower (parseAddress env req)) = .ok true := by
    unfold isAllowlisted
    rw [if_pos (by simp [hdb]), if_pos (by simp [hdbu])]
    simp [hallow]
  exact handler2_kvdown env st req hm hv hal hk hdown

/-- Witness for the amended C5 with the KV service down. -/
theorem claim_C5_witness :
    handler2 envKvDown ⟨[]⟩ (mkPost addrLo) =
      (⟨500, { ok := false, error := some "connect ECONNREFUSED" }⟩, ⟨[]⟩, 1) :=
  claim_C5 envKvDown ⟨[]⟩ (mkPost addrLo) rfl (by decide) rfl rfl (by decide) rfl rfl

/-- Counterexample to claim C6: the `part_000` handler stores the address
exactly as submitted (trimmed, not lowercased), so the two case variants
`0xAB34…` and `0xab34…` of the same normalized address are stored as two
different values — not "the same single normalized (lowercase) value". -/
theorem claim_C6_counterexample :
    (handler0 envPg ⟨false, []⟩ (mkPost addrAB)).2.1.rows.map PgRow.address = [addrAB] ∧
    (handler0 envPg ⟨false, []⟩ (mkPost addrab)).2.1.rows.map PgRow.address = [addrab] ∧
    addrAB ≠ addrab ∧ jsToLower addrAB = jsToLower addrab ∧ jsToLower addrAB ≠ addrAB := by
  decide

/-- Claim C6 as amended: in both `monad-address.ts` handlers the validated
address is lowercased before the allowlist lookup and before storage, so
two valid submitted addresses with the same hex digits in different case
get identical responses and identical store effects, and any store change
appends exactly the single normalized (lowercase) value; the `part_000`
handler instead stores the address as submitted, without lowercasing. -/
theorem claim_C6 (env : Env) (st st2 : KvState) (rs rt : ApiRequest)
    (hms : rs.method = some "POST") (hmt : rt.method = some "POST")
    (hps : addressRegexTest (parseAddress env rs) = true)
    (hpt : addressRegexTest (parseAddress env rt) = true)
    (heq : jsToLower (parseAddress env rs) = jsToLower (parseAddress env rt)) :
    handler1 env st rs = handler1 env st rt ∧
    handler2 env st2 rs = handler2 env st2 rt ∧
    ((handler2 env st2 rs).2.1 = st2 ∨
      (handler2 env st2 rs).2.1 =
        ⟨st2.confirmed ++ [jsToLower (parseAddress env rs)]⟩) := by
  refine ⟨?_, ?_, ?_⟩
  · unfold handler1
    rw [hms, hmt, hps, hpt, heq]
  · unfold handler2
    rw [hms, hmt, hps, hpt, heq]
  · rcases handler2_state_cases env st2 rs with h | ⟨_, h⟩
    · exact Or.inl h
    · exact Or.inr h

/-- Witness for the amended C6 on the case pair `0xAB34…` / `0xab34…`. -/
theorem claim_C6_witness :
    handler1 envBase ⟨[]⟩ (mkPost addrAB) = handler1 envBase ⟨[]⟩ (mkPost addrab) ∧
    handler2 envBase ⟨[]⟩ (mkPost addrAB) = handler2 envBase ⟨[]⟩ (mkPost addrab) ∧
    ((handler2 envBase ⟨[]⟩ (mkPost addrAB)).2.1 = ⟨[]⟩ ∨
      (handler2 envBase ⟨[]⟩ (mkPost addrAB)).2.1 =
        ⟨([] : List String) ++ [jsToLower (parseAddress envBase (mkPost addrAB))]⟩) :=
  claim_C6 envBase ⟨[]⟩ ⟨[]⟩ (mkPost addrAB) (mkPost addrab) rfl rfl (by decide) (by decide)
    (by decide)

/-- Counterexample to claim C4: starting from empty stores, submitting the
two case variants `0xAB34…` and `0xab34…` to the `part_000` handler yields
a reachable store in which the same normalized address appears twice. -/
theorem claim_C4_counterexample :
    ¬ (((runCalls [.c0 envPg (mkPost addrAB), .c0 envPg (mkPost addrab)]).pgSt.rows.map
        (fun r => jsToLower r.address)).Nodup) := by
  decide

/-- Claim C4 as amended: in every state reachable from empty stores by any
sequence of handler calls, the KV confirmed set holds each normalized
address at most once (its members are duplicate-free and fixed under
normalization), and the `part_000` table holds each *submitted* (trimmed,
case-sensitive) address at most once — case variants of one normalized
address may appear as separate records; and every single further call only
appends: no record is ever mutated or deleted. -/
theorem claim_C4 (cs : List Call) :
    ((runCalls cs).kvSt.confirmed.map jsToLower).Nodup ∧
    (runCalls cs).kvSt.confirmed.Nodup ∧
    ((runCalls cs).pgSt.rows.map PgRow.address).Nodup ∧
    ∀ c : Call,
      (∃ t1, (runCalls (cs ++ [c])).kvSt.confirmed = (runCalls cs).kvSt.confirmed ++ t1) ∧
      (∃ t2, (runCalls (cs ++ [c])).pgSt.rows = (runCalls cs).pgSt.rows ++ t2) := by
  have hInv := runCalls_SysInv cs
  refine ⟨?_, hInv.1.1, hInv.2, ?_⟩
  · have hmap : (runCalls cs).kvSt.confirmed.map jsToLower = (runCalls cs).kvSt.confirmed :=
      calc (runCalls cs).kvSt.confirmed.map jsToLower
          = (runCalls cs).kvSt.confirmed.map id :=
            List.map_congr_left (fun x hx => hInv.1.2 x hx)
        _ = (runCalls cs).kvSt.confirmed := List.map_id _
    rw [hmap]
    exact hInv.1.1
  · intro c
    rw [runCalls_append_one]
    exact applyCall_extends (runCalls cs) c

/-- Claim C8: a single call of either `monad-address.ts` handler attempts
at most one write to the confirmed-set store; any state change appends
exactly one fresh element; and a request rejected for wrong method,
invalid format, or absence from the allowlist leaves the confirmed set
completely unchanged with zero write attempts. -/
theorem claim_C8 (env : Env) (st : KvState) (req : ApiRequest) :
    (handler1 env st req).2.2 ≤ 1 ∧
    (handler2 env st req).2.2 ≤ 1 ∧
    ((handler1 env st req).2.1 = st ∨
      ∃ a, a ∉ st.confirmed ∧ (handler1 env st req).2.1 = ⟨st.confirmed ++ [a]⟩) ∧
    ((handler2 env st req).2.1 = st ∨
      ∃ a, a ∉ st.confirmed ∧ (handler2 env st req).2.1 = ⟨st.confirmed ++ [a]⟩) ∧
    (req.method ≠ some "POST" →
      (handler1 env st req).2.1 = st ∧ (handler1 env st req).2.2 = 0 ∧
      (handler2 env st req).2.1 = st ∧ (handler2 env st req).2.2 = 0) ∧
    (addressRegexTest (parseAddress env req) = false →
      (handler1 env st req).2.1 = st ∧ (handler1 env st req).2.2 = 0 ∧
      (handler2 env st req).2.1 = st ∧ (handler2 env st req).2.2 = 0) ∧
    (jsToLower (parseAddress env req) ∉ BASE_SET →
      (handler1 env st req).2.1 = st ∧ (handler1 env st req).2.2 = 0) ∧
    (isAllowlisted env (jsToLower (parseAddress env req)) ≠ .ok true →
      (handler2 env st req).2.1 = st ∧ (handler2 env st req).2.2 = 0) := by
  refine ⟨handler1_writes env st req, handler2_writes env st req, ?_, ?_, ?_, ?_, ?_, ?_⟩
  · rcases handler1_state_cases env st req with h | ⟨hn, h⟩
    · exact Or.inl h
    · exact Or.inr ⟨_, hn, h⟩
  · rcases handler2_state_cases env st req with h | ⟨hn, h⟩
    · exact Or.inl h
    · exact Or.inr ⟨_, hn, h⟩
  · intro hm
    rw [handler1_not_post env st req hm, handler2_not_post env st req hm]
    exact ⟨rfl, rfl, rfl, rfl⟩
  · intro hv
    by_cases hm : req.method = some "POST"
    · rw [handler1_invalid env st req hm hv, handler2_invalid env st req hm hv]
      exact ⟨rfl, rfl, rfl, rfl⟩
    · rw [handler1_not_post env st req hm, handler2_not_post env st req hm]
      exact ⟨rfl, rfl, rfl, rfl⟩
  · intro hna
    by_cases hm : req.method = some "POST"
    · by_cases hv : addressRegexTest (parseAddress env req) = true
      · rw [handler1_not_allowed env st req hm hv hna]
        exact ⟨rfl, rfl⟩
      · rw [handler1_invalid env st req hm (by simpa using hv)]
        exact ⟨rfl, rfl⟩
    · rw [handler1_not_post env st req hm]
      exact ⟨rfl, rfl⟩
  · intro hna
    by_cases hm : req.method = some "POST"
    · by_cases hv : addressRegexTest (parseAddress env req) = true
      · cases hi : isAllowlisted env (jsToLower (parseAddress env req)) with
        | ok b =>
            cases b with
            | false =>
                rw [handler2_not_allowed env st req hm hv hi]
                exact ⟨rfl, rfl⟩
            | true => exact absurd hi hna
        | error m =>
            rw [handler2_db_error env st req m hm hv hi]
            exact ⟨rfl, rfl⟩
      · rw [handler2_invalid env st req hm (by simpa using hv)]
        exact ⟨rfl, rfl⟩
    · rw [handler2_not_post env st req hm]
      exact ⟨rfl, rfl⟩

/-- Witness for C8: on a GET request both stores stay unchanged with zero
writes, via the wrong-method component of the claim. -/
theorem claim_C8_witness :
    (handler1 envBase ⟨[]⟩ reqGet).2.1 = ⟨[]⟩ ∧ (handler1 envBase ⟨[]⟩ reqGet).2.2 = 0 ∧
    (handler2 envBase ⟨[]⟩ reqGet).2.1 = ⟨[]⟩ ∧ (handler2 envBase ⟨[]⟩ reqGet).2.2 = 0 :=
  (claim_C8 envBase ⟨[]⟩ reqGet).2.2.2.2.1 (by decide)

/-- Claim C9: address extraction is total — every malformed body shape
(absent body, non-object non-string primitive, array, object without a
string `address` field, or a string body on which `JSON.parse` throws)
yields the empty string, which then fails validation, so a POST with such
a body gets the HTTP 400 client error from every handler variant rather
than an uncaught exception or a 500. -/
theorem claim_C9 (env : Env) (st : KvState) (stp : PgState) (req : ApiRequest)
    (h : malformedShape env req.body = true) :
    parseAddress env req = "" ∧
    (req.method = some "POST" →
      handler1 env st req = (⟨400, invalidFormatPayload⟩, st, 0) ∧
      handler2 env st req = (⟨400, invalidFormatPayload⟩, st, 0) ∧
      handler0 env stp req = (⟨400, invalidFormatPayload⟩, stp, 0)) := by
  have hp := parseAddress_malformed env req h
  refine ⟨hp, fun hm => ?_⟩
  have hv : addressRegexTest (parseAddress env req) = false := by
    rw [hp]
    decide
  exact ⟨handler1_invalid env st req hm hv, handler2_invalid env st req hm hv,
    handler0_invalid env stp req hm hv⟩

/-- Witness for C9: a POST with an absent body is answered with the 400
invalid-format error by all three handlers. -/
theorem claim_C9_witness :
    parseAddress envBase ⟨some "POST", [], none⟩ = "" ∧
    (handler1 envBase ⟨[]⟩ ⟨some "POST", [], none⟩ = (⟨400, invalidFormatPayload⟩, ⟨[]⟩, 0) ∧
     handler2 envBase ⟨[]⟩ ⟨some "POST", [], none⟩ = (⟨400, invalidFormatPayload⟩, ⟨[]⟩, 0) ∧
     handler0 envBase ⟨false, []⟩ ⟨some "POST", [], none⟩ =
       (⟨400, invalidFormatPayload⟩, ⟨false, []⟩, 0)) := by
  have h := claim_C9 envBase ⟨[]⟩ ⟨false, []⟩ ⟨some "POST", [], none⟩ (by decide)
  exact ⟨h.1, h.2 rfl⟩

/-- Claim C10: the `monad-address.ts` handlers are invariant under
surrounding whitespace in the submitted address: for every string `s` and
all-whitespace paddings `p`, `q`, submitting `p ++ s ++ q` and submitting
`s` produce identical responses and identical store effects, because the
extracted address is trimmed before the format check; in particular a
valid address with non-empty padding is accepted even though the padded
string itself does not match the pattern. -/
theorem claim_C10 (env : Env) (st st2 : KvState) (m : Option String)
    (hdrs : List (String × HeaderVal)) (p s q : String)
    (hp : ∀ c ∈ p.data, jsWhitespace c = true)
    (hq : ∀ c ∈ q.data, jsWhitespace c = true) :
    handler1 env st ⟨m, hdrs, some (.jObj [("address", .jStr (p ++ s ++ q))])⟩ =
      handler1 env st ⟨m, hdrs, some (.jObj [("address", .jStr s)])⟩ ∧
    handler2 env st2 ⟨m, hdrs, some (.jObj [("address", .jStr (p ++ s ++ q))])⟩ =
      handler2 env st2 ⟨m, hdrs, some (.jObj [("address", .jStr s)])⟩ ∧
    (addressRegexTest s = true → 0 < p.length + q.length →
      addressRegexTest (p ++ s ++ q) = false) := by
  have hpe : parseAddress env ⟨m, hdrs, some (.jObj [("address", .jStr (p ++ s ++ q))])⟩ =
      parseAddress env ⟨m, hdrs, some (.jObj [("address", .jStr s)])⟩ := by
    rw [parseAddress_obj, parseAddress_obj, jsTrim_pad p s q hp hq]
  exact ⟨handler1_congr env st _ _ rfl hpe, handler2_congr env st2 _ _ rfl hpe,
    fun h1 h2 => addressRegexTest_padded p s q h1 h2⟩

/-- Witness for C10: the example address padded with a leading and a
trailing space behaves exactly like the bare address. -/
theorem claim_C10_witness :
    handler1 envBase ⟨[]⟩ ⟨some "POST", [], some (.jObj [("address", .jStr (" " ++ addrLo ++ " "))])⟩ =
      handler1 envBase ⟨[]⟩ ⟨some "POST", [], some (.jObj [("address", .jStr addrLo)])⟩ ∧
    handler2 envBase ⟨[]⟩ ⟨some "POST", [], some (.jObj [("address", .jStr (" " ++ addrLo ++ " "))])⟩ =
      handler2 envBase ⟨[]⟩ ⟨some "POST", [], some (.jObj [("address", .jStr addrLo)])⟩ ∧
    (addressRegexTest addrLo = true → 0 < (" ").length + (" ").length →
      addressRegexTest (" " ++ addrLo ++ " ") = false) :=
  claim_C10 envBase ⟨[]⟩ ⟨[]⟩ (some "POST") [] " " addrLo " " (by decide) (by decide)
